import Mathlib

/-!
Verification of `temporary_allocator.hpp` (foonathan/memory, scoped
thread-local stack allocator) against its specification.

The header defines the `temporary_allocator` handle and the
`allocator_traits<temporary_allocator>` adapter.  The bodies of the
traits functions `allocate_node`, `allocate_array`, `deallocate_node`,
`deallocate_array`, `max_array_size` and `max_alignment` are in the
header and are embedded here directly.  The `memory_stack` arena, the
handle's constructor, destructor, move operations, `allocate`, and
`max_node_size` are only declared in the header; their behaviour is
modelled from the specification (marked `Modelled from the spec:`).

`std::size_t` is modelled as `Nat` with explicit reduction modulo
`2 ^ 64` where the C++ source performs wrapping arithmetic.
-/

namespace Memory

/-- Number of values of `std::size_t` on the 64-bit platform assumed by the
embedding: `2 ^ 64`.  `std::size_t(-1)` converts to `sizeT_card - 1`. -/
def sizeT_card : Nat := 2 ^ 64

/-- Modelled from the spec: "Alignment must be a power of two".  The usual
bit test `n != 0 && (n & (n - 1)) == 0`. -/
def isPowerOfTwo (n : Nat) : Bool := n != 0 && (n &&& (n - 1)) == 0

/-- Rounds `addr` up to the next multiple of `align` (bump-pointer
alignment arithmetic of the arena). -/
def alignUp (addr align : Nat) : Nat := (addr + align - 1) / align * align

/-- Modelled from the spec: a Block is "a single contiguous chunk of raw
memory with a known capacity".  `base` is its start address. -/
structure Block where
  base : Nat
  capacity : Nat
deriving DecidableEq, Repr

/-- Modelled from the spec: a Marker is "`{ block_identity, cursor }`",
the arena's allocation frontier at capture time.  `block` is the index of
the block in the arena's chain. -/
structure Marker where
  block : Nat
  cursor : Nat
deriving DecidableEq, Repr

/-- The error taxonomy of the spec: `OutOfMemory`, `InvalidArgument`, and
assertion-level `ContractViolation`. -/
inductive AllocError where
  | invalidArgument
  | outOfMemory
  | contractViolation
deriving DecidableEq, Repr

/-- Modelled from the spec: the thread-local arena `memory_stack<>`
(declared in `stack_allocator.hpp`, not part of the visible source).
`blocks` is the ordered block chain, `cur` the index of the current
block, `cursor` the used prefix of the current block.  `nextBase` is the
next fresh address the backing allocator hands out, `growthFactor` and
`blockCeiling` the growth policy ("new block sized at least
`max(requested_size, current_capacity * growth_factor)`", growth "must
have a ceiling"). -/
structure memory_stack where
  blocks : List Block
  cur : Nat
  cursor : Nat
  nextBase : Nat
  growthFactor : Nat
  blockCeiling : Nat
deriving DecidableEq, Repr

/-- The block the arena currently allocates from. -/
def memory_stack.currentBlock (s : memory_stack) : Block :=
  s.blocks.getD s.cur ⟨0, 0⟩

/-- Modelled from the spec: "`marker()` captures
`(current_block_identity, current_cursor)`.  O(1), no side effects." -/
def memory_stack.marker (s : memory_stack) : Marker :=
  ⟨s.cur, s.cursor⟩

/-- Modelled from the spec: "`unwind(marker)` sets current block to
`marker.block_identity` and its cursor to `marker.cursor`"; later blocks
are retained for reuse, not released. -/
def memory_stack.unwind (s : memory_stack) (m : Marker) : memory_stack :=
  { s with cur := m.block, cursor := m.cursor }

/-- Modelled from the spec: "remaining bytes in the current block only". -/
def memory_stack.capacity_remaining (s : memory_stack) : Nat :=
  s.currentBlock.capacity - s.cursor

/-- Modelled from the spec: growth path of `allocate` — "requests a new
block from the backing allocator sized at least
`max(requested_size, current_capacity * growth_factor)` and appends it as
the new current block"; fails with `OutOfMemory` if the backing allocator
cannot supply it (growth ceiling). -/
def memory_stack.grow (s : memory_stack) (size alignment : Nat) :
    Except AllocError (Nat × memory_stack) :=
  if s.blockCeiling < max size (s.currentBlock.capacity * s.growthFactor) then
    .error .outOfMemory
  else
    .ok (alignUp s.nextBase alignment,
      { s with
        blocks := s.blocks ++
          [⟨alignUp s.nextBase alignment,
            max size (s.currentBlock.capacity * s.growthFactor)⟩],
        cur := s.blocks.length,
        cursor := size,
        nextBase := alignUp s.nextBase alignment +
          max size (s.currentBlock.capacity * s.growthFactor) })

/-- Modelled from the spec: "`allocate(size, alignment)` carves `size`
bytes aligned to `alignment` from the current block's remaining capacity.
If the current block lacks room, advances to the next block in the chain
if one exists and has room, else requests a new block"; "request with
non-power-of-two alignment fails with `InvalidArgument`". -/
def memory_stack.allocate (s : memory_stack) (size alignment : Nat) :
    Except AllocError (Nat × memory_stack) :=
  if isPowerOfTwo alignment then
    if alignUp (s.currentBlock.base + s.cursor) alignment + size ≤
        s.currentBlock.base + s.currentBlock.capacity then
      .ok (alignUp (s.currentBlock.base + s.cursor) alignment,
        { s with
          cursor := alignUp (s.currentBlock.base + s.cursor) alignment + size -
            s.currentBlock.base })
    else if s.cur + 1 < s.blocks.length then
      if alignUp (s.blocks.getD (s.cur + 1) ⟨0, 0⟩).base alignment + size ≤
          (s.blocks.getD (s.cur + 1) ⟨0, 0⟩).base +
            (s.blocks.getD (s.cur + 1) ⟨0, 0⟩).capacity then
        .ok (alignUp (s.blocks.getD (s.cur + 1) ⟨0, 0⟩).base alignment,
          { s with
            cur := s.cur + 1,
            cursor := alignUp (s.blocks.getD (s.cur + 1) ⟨0, 0⟩).base alignment +
              size - (s.blocks.getD (s.cur + 1) ⟨0, 0⟩).base })
      else s.grow size alignment
    else s.grow size alignment
  else .error .invalidArgument

/-- The scoped handle `temporary_allocator`: private members `marker_`
(the captured marker) and `unwind_` (whether this handle still owns the
rollback obligation), per lines 33–34 of the header. -/
structure temporary_allocator where
  marker_ : Marker
  unwind_ : Bool
deriving DecidableEq, Repr

/-- Modelled from the spec: the factory `make_temporary_allocator`
(the only way to create a handle) binds to the thread-local arena and
"captures a fresh Marker"; the fresh handle owns the rollback
obligation. -/
def make_temporary_allocator (s : memory_stack) : temporary_allocator :=
  ⟨s.marker, true⟩

/-- Modelled from the spec: `temporary_allocator::allocate` "forwards to
the bound Arena's `allocate`".  The handle itself is not modified. -/
def temporary_allocator.allocate (_t : temporary_allocator)
    (s : memory_stack) (size alignment : Nat) :
    Except AllocError (Nat × memory_stack) :=
  s.allocate size alignment

/-- Modelled from the spec: the destructor — "if this handle still owns
its rollback obligation, calls `unwind(marker)` on the Arena"; it is
`noexcept`, modelled as a total function on arena states. -/
def temporary_allocator.destroy (t : temporary_allocator)
    (s : memory_stack) : memory_stack :=
  if t.unwind_ then s.unwind t.marker_ else s

/-- Modelled from the spec: move construction "transfers the marker and
the rollback obligation; the moved-from handle becomes inert".  Returns
(destination, moved-from source). -/
def temporary_allocator.moveConstruct (other : temporary_allocator) :
    temporary_allocator × temporary_allocator :=
  (⟨other.marker_, other.unwind_⟩, ⟨other.marker_, false⟩)

/-- Modelled from the spec: move assignment, same transfer as move
construction.  Returns (destination, moved-from source). -/
def temporary_allocator.moveAssign (_self other : temporary_allocator) :
    temporary_allocator × temporary_allocator :=
  (⟨other.marker_, other.unwind_⟩, ⟨other.marker_, false⟩)

namespace allocator_traits

/-- Modelled from the spec: `max_node_size` "returns the Arena's
`capacity_remaining()` as observed through the handle" (declared but not
defined in the header). -/
def max_node_size (arena : memory_stack) : Nat :=
  arena.capacity_remaining

/-- `max_array_size` (header, lines 85–88): returns `max_node_size`. -/
def max_array_size (arena : memory_stack) : Nat :=
  max_node_size arena

/-- `max_alignment` (header, lines 92–95): returns `std::size_t(-1)`. -/
def max_alignment (_state : temporary_allocator) : Nat :=
  sizeT_card - 1

/-- `allocate_node` (header, lines 59–63):
`assert(size <= max_node_size(state))`, then forwards to
`state.allocate(size, alignment)`.  The firing assertion is embedded as
the distinguished assertion-level outcome `ContractViolation`. -/
def allocate_node (state : temporary_allocator) (arena : memory_stack)
    (size alignment : Nat) : Except AllocError (Nat × memory_stack) :=
  if size ≤ max_node_size arena then state.allocate arena size alignment
  else .error .contractViolation

/-- `allocate_array` (header, lines 65–69): forwards to
`allocate_node(state, count * size, alignment)`.  The multiplication is
C++ `std::size_t` multiplication, i.e. it wraps modulo `2 ^ 64`; the
header performs no overflow check. -/
def allocate_array (state : temporary_allocator) (arena : memory_stack)
    (count size alignment : Nat) : Except AllocError (Nat × memory_stack) :=
  allocate_node state arena (count * size % sizeT_card) alignment

/-- `deallocate_node` (header, lines 74–75): empty body, `noexcept`;
takes the allocator by `const&` and returns the arena unchanged. -/
def deallocate_node (_state : temporary_allocator) (arena : memory_stack)
    (_ptr _size _alignment : Nat) : memory_stack :=
  arena

/-- `deallocate_array` (header, lines 77–78): empty body, `noexcept`;
takes the allocator by `const&` and returns the arena unchanged. -/
def deallocate_array (_state : temporary_allocator) (arena : memory_stack)
    (_ptr _count _size _alignment : Nat) : memory_stack :=
  arena

end allocator_traits

/-- A sequence of allocation requests `(size, alignment)` made through a
handle; a failed request leaves the arena unchanged. -/
def allocSeq (s : memory_stack) : List (Nat × Nat) → memory_stack
  | [] => s
  | (size, alignment) :: rest =>
    match s.allocate size alignment with
    | .ok (_, next) => allocSeq next rest
    | .error _ => allocSeq s rest

/-- Concrete arena used by witnesses: one block of 1024 bytes at address
0, nothing allocated yet, backing allocator hands out fresh memory from
address 1024 with growth factor 2 and a 2^20-byte block ceiling. -/
def s0 : memory_stack :=
  ⟨[⟨0, 1024⟩], 0, 0, 1024, 2, 2 ^ 20⟩

/-- Concrete handle used by witnesses: created on `s0` by the factory. -/
def t0 : temporary_allocator :=
  make_temporary_allocator s0

/-! ## Helper lemmas -/

/-- The address produced by `alignUp` is a multiple of the alignment. -/
theorem alignUp_mod (addr align : Nat) : alignUp addr align % align = 0 :=
  Nat.mul_mod_left _ _

/-- Every address the growth path hands out is aligned. -/
theorem grow_ok_aligned (s : memory_stack) (size alignment addr : Nat)
    (next : memory_stack)
    (h : s.grow size alignment = Except.ok (addr, next)) :
    addr % alignment = 0 := by
  unfold memory_stack.grow at h
  split at h
  · exact absurd h (by simp)
  · simp only [Except.ok.injEq, Prod.mk.injEq] at h
    rw [← h.1]
    exact alignUp_mod _ _

/-- Every address `memory_stack.allocate` hands out is aligned. -/
theorem allocate_ok_aligned (s : memory_stack) (size alignment addr : Nat)
    (next : memory_stack)
    (h : s.allocate size alignment = Except.ok (addr, next)) :
    addr % alignment = 0 := by
  unfold memory_stack.allocate at h
  split at h
  · split at h
    · simp only [Except.ok.injEq, Prod.mk.injEq] at h
      rw [← h.1]
      exact alignUp_mod _ _
    · split at h
      · split at h
        · simp only [Except.ok.injEq, Prod.mk.injEq] at h
          rw [← h.1]
          exact alignUp_mod _ _
        · exact grow_ok_aligned _ _ _ _ _ h
      · exact grow_ok_aligned _ _ _ _ _ h
  · exact absurd h (by simp)

/-- The arena's `allocate` never reports the assertion-level outcome
`ContractViolation`: its only failures are `InvalidArgument` and
`OutOfMemory`. -/
theorem allocate_ne_contractViolation (t : temporary_allocator)
    (s : memory_stack) (size alignment : Nat) :
    t.allocate s size alignment ≠ Except.error AllocError.contractViolation := by
  unfold temporary_allocator.allocate memory_stack.allocate memory_stack.grow
  split
  · split
    · simp
    · split
      · split
        · simp
        · split <;> simp
      · split <;> simp
  · simp

/-! ## Claim theorems -/

/-- C5: `deallocate_node` and `deallocate_array` are no-ops for every
handle, pointer, size, count and alignment: the arena state is returned
completely unchanged (and the handle, taken by `const&`, is untouched);
being total functions they never fail. -/
theorem C5_deallocate_noop (t : temporary_allocator) (arena : memory_stack)
    (p size count alignment : Nat) :
    allocator_traits.deallocate_node t arena p size alignment = arena ∧
    allocator_traits.deallocate_array t arena p count size alignment = arena :=
  ⟨rfl, rfl⟩

/-- C8: every successful `allocate(size, alignment)` call on a handle
returns a pointer whose address is a multiple of the alignment. -/
theorem C8_allocate_aligned (t : temporary_allocator) (s : memory_stack)
    (size alignment addr : Nat) (next : memory_stack)
    (h : t.allocate s size alignment = Except.ok (addr, next)) :
    addr % alignment = 0 :=
  allocate_ok_aligned s size alignment addr next h

/-- C8 witness: on the concrete arena `s0`, allocating 8 bytes at
alignment 4 succeeds with address 0, and 0 is a multiple of 4. -/
theorem C8_allocate_aligned_witness :
    t0.allocate s0 8 4 = Except.ok (0, { s0 with cursor := 8 }) ∧ 0 % 4 = 0 :=
  ⟨rfl, C8_allocate_aligned t0 s0 8 4 0 { s0 with cursor := 8 } rfl⟩

/-- C9: an `allocate(size, alignment)` request whose alignment is not a
power of two fails immediately with `InvalidArgument`; no new arena state
is produced, so the arena is unchanged by the failed call. -/
theorem C9_nonpow2_invalidArgument (t : temporary_allocator)
    (s : memory_stack) (size alignment : Nat)
    (h : isPowerOfTwo alignment = false) :
    t.allocate s size alignment = Except.error AllocError.invalidArgument := by
  unfold temporary_allocator.allocate memory_stack.allocate
  simp [h]

/-- C9 witness: alignment 3 is not a power of two, and the concrete
request fails with `InvalidArgument`. -/
theorem C9_nonpow2_invalidArgument_witness :
    isPowerOfTwo 3 = false ∧
    t0.allocate s0 8 3 = Except.error AllocError.invalidArgument :=
  ⟨by decide, C9_nonpow2_invalidArgument t0 s0 8 3 (by decide)⟩

/-- C2: scope reclamation — for every arena state and every sequence of
allocation requests made through a freshly created handle (which owns its
rollback obligation), destroying the handle rolls the arena back so that
its allocation frontier equals, bit for bit, the marker captured at the
handle's construction; destruction is a total function, so it never
fails. -/
theorem C2_scope_reclamation (s : memory_stack) (reqs : List (Nat × Nat)) :
    ((make_temporary_allocator s).destroy (allocSeq s reqs)).marker = s.marker :=
  rfl

/-- C3: move construction and move assignment transfer the marker and the
rollback obligation: the moved-from handle becomes inert (its destruction
changes nothing), and the destination carries the original marker and its
destruction performs exactly the rollback to that marker. -/
theorem C3_move_transfer (t d : temporary_allocator) (s : memory_stack)
    (h : t.unwind_ = true) :
    t.moveConstruct.2.destroy s = s ∧
    t.moveConstruct.1.marker_ = t.marker_ ∧
    t.moveConstruct.1.destroy s = s.unwind t.marker_ ∧
    (d.moveAssign t).2.destroy s = s ∧
    (d.moveAssign t).1.marker_ = t.marker_ ∧
    (d.moveAssign t).1.destroy s = s.unwind t.marker_ := by
  unfold temporary_allocator.moveConstruct temporary_allocator.moveAssign
    temporary_allocator.destroy
  simp [h]

/-- C3 witness: instantiated at the concrete handle `t0` (which owns its
rollback) and arena `s0`. -/
theorem C3_move_transfer_witness :
    t0.unwind_ = true ∧
    (t0.moveConstruct.2.destroy s0 = s0 ∧
     t0.moveConstruct.1.marker_ = t0.marker_ ∧
     t0.moveConstruct.1.destroy s0 = s0.unwind t0.marker_ ∧
     (t0.moveAssign t0).2.destroy s0 = s0 ∧
     (t0.moveAssign t0).1.marker_ = t0.marker_ ∧
     (t0.moveAssign t0).1.destroy s0 = s0.unwind t0.marker_) :=
  ⟨rfl, C3_move_transfer t0 t0 s0 rfl⟩

/-- C4: whenever `size <= max_node_size(state)` holds, `allocate_node`
forwards to `state.allocate(size, alignment)` and the assertion does not
fire — the result is never the assertion-level `ContractViolation`
outcome, which is reserved for the contract breach `size >
max_node_size`. -/
theorem C4_allocate_node_forwards (state : temporary_allocator)
    (arena : memory_stack) (size alignment : Nat)
    (h : size ≤ allocator_traits.max_node_size arena) :
    allocator_traits.allocate_node state arena size alignment =
      state.allocate arena size alignment ∧
    allocator_traits.allocate_node state arena size alignment ≠
      Except.error AllocError.contractViolation := by
  unfold allocator_traits.allocate_node
  rw [if_pos h]
  exact ⟨rfl, allocate_ne_contractViolation state arena size alignment⟩

/-- C4 witness: on the concrete arena `s0` (1024 bytes remaining), a
node of 8 bytes satisfies the precondition and forwards. -/
theorem C4_allocate_node_forwards_witness :
    8 ≤ allocator_traits.max_node_size s0 ∧
    (allocator_traits.allocate_node t0 s0 8 8 = t0.allocate s0 8 8 ∧
     allocator_traits.allocate_node t0 s0 8 8 ≠
       Except.error AllocError.contractViolation) :=
  ⟨by decide, C4_allocate_node_forwards t0 s0 8 8 (by decide)⟩

/-- C6: when `count * element_size` does not overflow `std::size_t`,
`allocate_array(state, count, element_size, alignment)` is exactly
`allocate_node(state, count * element_size, alignment)` — same result,
same resulting arena state. -/
theorem C6_allocate_array_equiv (state : temporary_allocator)
    (arena : memory_stack) (count size alignment : Nat)
    (h : count * size < sizeT_card) :
    allocator_traits.allocate_array state arena count size alignment =
      allocator_traits.allocate_node state arena (count * size) alignment := by
  unfold allocator_traits.allocate_array
  rw [Nat.mod_eq_of_lt h]

/-- C6 witness: `4 * 8 = 32` does not overflow, and the array request
equals the corresponding node request on the concrete arena. -/
theorem C6_allocate_array_equiv_witness :
    4 * 8 < sizeT_card ∧
    allocator_traits.allocate_array t0 s0 4 8 8 =
      allocator_traits.allocate_node t0 s0 (4 * 8) 8 :=
  ⟨by decide, C6_allocate_array_equiv t0 s0 4 8 8 (by decide)⟩

/-- C7: `max_alignment` is unbounded — it returns `std::size_t(-1)`, the
maximum representable `std::size_t` value, so every representable
alignment request is within the advertised bound. -/
theorem C7_max_alignment_unbounded (state : temporary_allocator) :
    allocator_traits.max_alignment state = sizeT_card - 1 ∧
    ∀ a : Nat, a < sizeT_card → a ≤ allocator_traits.max_alignment state :=
  ⟨rfl, fun _ ha => Nat.le_sub_one_of_lt ha⟩

/-- C7 witness: instantiated at the concrete handle `t0` and the
representable alignment 4096. -/
theorem C7_max_alignment_unbounded_witness :
    allocator_traits.max_alignment t0 = sizeT_card - 1 ∧
    (4096 < sizeT_card ∧ 4096 ≤ allocator_traits.max_alignment t0) :=
  ⟨(C7_max_alignment_unbounded t0).1,
   by decide,
   (C7_max_alignment_unbounded t0).2 4096 (by decide)⟩

/-- C1 counterexample: `2^63 * 2` overflows `std::size_t`, yet on the
concrete arena `s0` the call `allocate_array(t0, 2^63, 2, 8)` does not
fail with `InvalidArgument` — the product silently wraps to 0 and the
request succeeds. -/
theorem C1_counterexample :
    sizeT_card ≤ 2 ^ 63 * 2 ∧
    allocator_traits.allocate_array t0 s0 (2 ^ 63) 2 8 ≠
      Except.error AllocError.invalidArgument := by
  refine ⟨by decide, fun hcontra => ?_⟩
  have hok : allocator_traits.allocate_array t0 s0 (2 ^ 63) 2 8 =
      Except.ok (0, s0) := rfl
  rw [hok] at hcontra
  exact Except.noConfusion hcontra

/-- C1 amended: when `count * element_size` overflows `std::size_t`,
`allocate_array` performs no overflow check — the product silently wraps
modulo `2 ^ 64` and the call behaves exactly as `allocate_node` on the
wrapped product. -/
theorem C1_overflow_wraps (state : temporary_allocator)
    (arena : memory_stack) (count size alignment : Nat)
    (_h : sizeT_card ≤ count * size) :
    allocator_traits.allocate_array state arena count size alignment =
      allocator_traits.allocate_node state arena
        (count * size % sizeT_card) alignment :=
  rfl

/-- C1 amended witness: instantiated at the overflowing product
`2^63 * 2` on the concrete arena. -/
theorem C1_overflow_wraps_witness :
    sizeT_card ≤ 2 ^ 63 * 2 ∧
    allocator_traits.allocate_array t0 s0 (2 ^ 63) 2 8 =
      allocator_traits.allocate_node t0 s0 (2 ^ 63 * 2 % sizeT_card) 8 :=
  ⟨by decide, C1_overflow_wraps t0 s0 (2 ^ 63) 2 8 (by decide)⟩

/-- C10: `max_array_size` equals `max_node_size` on every arena state:
the advisory array bound is the same total-byte bound as for a single
node, not divided by element size or count. -/
theorem C10_max_array_size_eq (arena : memory_stack) :
    allocator_traits.max_array_size arena = allocator_traits.max_node_size arena :=
  rfl

end Memory
